import Mathlib

/-!
Verification development for the server-monitor script (`monitor.py`).

The script collects host metrics (cpu/memory/disk/load/uptime) as small
string-keyed dictionaries, compares the cpu/memory/disk values against a
threshold configuration, formats a report, and decides whether to deliver it.
Here the data model and the functions `check_alerts`, `format_message`,
`get_cpu`, `get_memory`, `get_disk`, `get_load`, `run_command` and the send
decision of `main` are embedded shallowly: dictionaries with optional keys
become structures with `Option` fields, Python floats become `ℚ`, and code
paths that would raise an uncaught exception become `Except.error`.
-/

namespace Monitor

/-- Round the nonnegative fraction `n / d` (`d ≠ 0`) to the nearest natural,
ties to even — the rounding CPython uses when formatting with `.1f`
(modelled on exact fractions instead of on binary floating point, which
agrees away from representation-induced ties). -/
def roundHalfEvenN (n d : ℕ) : ℕ :=
  let q := n / d
  let r := n % d
  if 2 * r < d then q
  else if d < 2 * r then q + 1
  else if q % 2 = 0 then q else q + 1

/-- Python `f"{v:.1f}"`: the value rendered with exactly one decimal digit.
The sign is taken from the input; the magnitude `|v| * 10 = |num| * 10 / den`
is rounded half-to-even and split into integer and tenths digits. -/
def fmt1 (q : ℚ) : String :=
  let m := roundHalfEvenN (q.num.natAbs * 10) q.den
  (if q.num < 0 then "-" else "") ++ (toString (m / 10) ++ ("." ++ toString (m % 10)))

/-- One metric dictionary as consumed by `check_alerts` / `format_message`:
the keys `value`, `unit`, `error` may each be absent. -/
structure MetricEntry where
  value : Option ℚ
  unit : Option String
  error : Option String
deriving DecidableEq

/-- The load dictionary: keys `1min`, `5min`, `15min`, possibly absent. -/
structure LoadEntry where
  oneMin : Option String
  fiveMin : Option String
  fifteenMin : Option String
deriving DecidableEq

/-- The uptime dictionary: key `uptime`, possibly absent. -/
structure UptimeEntry where
  uptime : Option String
deriving DecidableEq

/-- The status dictionary handed to `check_alerts` and `format_message`;
each top-level key may be absent (`status.get(key, {})` in the source). -/
structure Status where
  cpu : Option MetricEntry
  memory : Option MetricEntry
  disk : Option MetricEntry
  load : Option LoadEntry
  uptime : Option UptimeEntry
deriving DecidableEq

/-- The thresholds dictionary: each of the keys `cpu`, `memory`, `disk`
may be absent. -/
structure Thresholds where
  cpu : Option ℚ
  memory : Option ℚ
  disk : Option ℚ
deriving DecidableEq

/-- The config dictionary: the key `thresholds` may be absent. -/
structure Config where
  thresholds : Option Thresholds
deriving DecidableEq

/-- `status.get(name, {}).get("value", 0)` from `check_alerts` and
`format_message`: a missing metric entry or a missing `value` key yields 0. -/
def getValue (m : Option MetricEntry) : ℚ :=
  ((m.getD ⟨none, none, none⟩).value).getD 0

/-- `config.get("thresholds", {})`. -/
def thresholdsOf (config : Config) : Thresholds :=
  config.thresholds.getD ⟨none, none, none⟩

/-- `thresholds.get("cpu", 80)`. -/
def cpuThreshold (config : Config) : ℚ := (thresholdsOf config).cpu.getD 80

/-- `thresholds.get("memory", 90)`. -/
def memThreshold (config : Config) : ℚ := (thresholdsOf config).memory.getD 90

/-- `thresholds.get("disk", 90)`. -/
def diskThreshold (config : Config) : ℚ := (thresholdsOf config).disk.getD 90

/-- The default configuration built in `load_config`:
thresholds cpu=80, memory=90, disk=90. -/
def configDefault : Config := ⟨some ⟨some 80, some 90, some 90⟩⟩

/-- The cpu alert string of `check_alerts`; note the hard-coded `(>80%)`. -/
def cpuAlertStr (v : ℚ) : String := "⚠️ CPU 过载: " ++ (fmt1 v ++ "% (>80%)")

/-- The memory alert string of `check_alerts`; note the hard-coded `(>90%)`. -/
def memAlertStr (v : ℚ) : String := "⚠️ 内存告警: " ++ (fmt1 v ++ "% (>90%)")

/-- The disk alert string of `check_alerts`; note the hard-coded `(>90%)`. -/
def diskAlertStr (v : ℚ) : String := "⚠️ 磁盘不足: " ++ (fmt1 v ++ "% (>90%)")

/-- `check_alerts(status, config)`: appends a cpu, then a memory, then a disk
alert string whenever the metric's `value` (0 when absent) strictly exceeds
the configured threshold. The `error` key is never consulted. -/
def check_alerts (status : Status) (config : Config) : List String :=
  let cpu := getValue status.cpu
  let mem := getValue status.memory
  let disk := getValue status.disk
  (if cpu > cpuThreshold config then [cpuAlertStr cpu] else []) ++
  ((if mem > memThreshold config then [memAlertStr mem] else []) ++
   (if disk > diskThreshold config then [diskAlertStr disk] else []))

/-- The character at index 3 of an alert string: `'C'` for a cpu alert,
`'内'` for memory, `'磁'` for disk (the first three characters are the
warning emoji, its variation selector, and a space). -/
def alertTag (s : String) : Option Char := s.data[3]?

/-- Rank of an alert string in the fixed cpu &lt; memory &lt; disk order. -/
def alertRank (s : String) : ℕ :=
  match alertTag s with
  | some 'C' => 0
  | some '内' => 1
  | some '磁' => 2
  | _ => 3

/-- Whether the alert list holds a cpu alert. -/
def hasCpuAlert (alerts : List String) : Bool :=
  alerts.any (fun s => alertTag s == some 'C')

/-- Whether the alert list holds a memory alert. -/
def hasMemAlert (alerts : List String) : Bool :=
  alerts.any (fun s => alertTag s == some '内')

/-- Whether the alert list holds a disk alert. -/
def hasDiskAlert (alerts : List String) : Bool :=
  alerts.any (fun s => alertTag s == some '磁')

/-- A status whose metric entries have had their `error` keys removed. -/
def eraseErrors (st : Status) : Status :=
  ⟨st.cpu.map (fun e => ⟨e.value, e.unit, none⟩),
   st.memory.map (fun e => ⟨e.value, e.unit, none⟩),
   st.disk.map (fun e => ⟨e.value, e.unit, none⟩),
   st.load, st.uptime⟩

/-- Substring test: `pat` occurs contiguously somewhere in `s`. -/
def strContains (s pat : String) : Bool :=
  (List.range (s.data.length + 1)).any (fun i => pat.data.isPrefixOf (s.data.drop i))

/-- The cpu line of `format_message`: marker `✅` below 50, `🟡` below the
hard-coded 80, else `🔴`; the value rendered with one decimal. The
threshold configuration plays no part. -/
def cpuLine (status : Status) : String :=
  let cpu_val := getValue status.cpu
  let emoji := if cpu_val < 50 then "✅" else if cpu_val < 80 then "🟡" else "🔴"
  emoji ++ (" **CPU** " ++ (fmt1 cpu_val ++ "%"))

/-- The memory line of `format_message`: marker bounds hard-coded 70 / 90. -/
def memLine (status : Status) : String :=
  let mem_val := getValue status.memory
  let emoji := if mem_val < 70 then "✅" else if mem_val < 90 then "🟡" else "🔴"
  emoji ++ (" **内存** " ++ (fmt1 mem_val ++ "%"))

/-- The disk line of `format_message`: marker bounds hard-coded 70 / 90. -/
def diskLine (status : Status) : String :=
  let disk_val := getValue status.disk
  let emoji := if disk_val < 70 then "✅" else if disk_val < 90 then "🟡" else "🔴"
  emoji ++ (" **磁盘** " ++ (fmt1 disk_val ++ "%"))

/-- The list `message` built by `format_message(status, alerts, config)`
before the final `"\n".join`; `now` stands for the formatted timestamp.
The `config` argument is accepted but, as in the source, never read. -/
def format_messageLines (status : Status) (alerts : List String) (config : Config)
    (now : String) : List String :=
  let load := status.load.getD ⟨none, none, none⟩
  let uptime := (status.uptime.getD ⟨none⟩).uptime.getD "N/A"
  ["🖥️ **服务器监控** - " ++ (now ++ "\n"),
   cpuLine status,
   memLine status,
   diskLine status,
   "",
   "📊 **负载:** " ++ (load.oneMin.getD "0" ++ (" | " ++ (load.fiveMin.getD "0" ++ (" | " ++ load.fifteenMin.getD "0")))),
   "⏱️  **运行时:** " ++ uptime] ++
  ((if alerts ≠ [] then
      ["", String.mk (List.replicate 40 '='), "🚨 **告警:**"] ++ alerts.map (fun a => "  " ++ a)
    else ["", "✅ **状态正常**"]) ++
   ["", "#服务器 #监控"])

/-- `format_message`: the joined report string. -/
def format_message (status : Status) (alerts : List String) (config : Config)
    (now : String) : String :=
  String.intercalate "\n" (format_messageLines status alerts config now)

/-- Python truthiness of the optional credential strings in `main`:
`None` and the empty string are falsy. -/
def truthy : Option String → Bool
  | none => false
  | some s => s != ""

/-- Outcome of the delivery decision at the end of `main`. -/
inductive SendOutcome where
  | attempted
  | notConfigured
  | skippedQuiet
deriving DecidableEq

/-- The send decision of `main`: `should_send = len(alerts) > 0 or minute < 5`;
delivery is attempted when both credentials are truthy and `should_send`;
with a missing credential the `elif` reports the not-configured outcome;
otherwise nothing further is printed. -/
def sendDecision (alerts : List String) (minute : ℕ) (appId appSecret : Option String) :
    SendOutcome :=
  let shouldSend := decide (0 < alerts.length) || decide (minute < 5)
  if truthy appId && truthy appSecret && shouldSend then .attempted
  else if !truthy appId || !truthy appSecret then .notConfigured
  else .skippedQuiet

/-- Everything `main` prints after loading config and status: the banner,
the report, and the delivery outcome line (if any). `networkOk` stands for
the combined success of the token exchange and the message send. -/
def mainPrinted (status : Status) (config : Config) (nowHeader nowMsg : String)
    (minute : ℕ) (appId appSecret : Option String) (networkOk : Bool) : List String :=
  let alerts := check_alerts status config
  let message := format_message status alerts config nowMsg
  ["\n" ++ String.mk (List.replicate 50 '='),
   "🖥️ 服务器监控 - " ++ nowHeader,
   String.mk (List.replicate 50 '=') ++ "\n",
   message] ++
  (match sendDecision alerts minute appId appSecret with
   | .attempted => if networkOk then ["\n✅ 已发送至飞书！"] else ["\n⚠️ 飞书发送失败"]
   | .notConfigured => ["\n💡 未配置飞书，仅显示本地"]
   | .skippedQuiet => [])

/-- Python `str.isdigit` on one character, restricted to ASCII: the decimal
digits `0`–`9`. (CPython additionally accepts non-ASCII Unicode digit
characters, which never arise in the percentage outputs modelled here.) -/
def pyIsDigit (c : Char) : Bool := decide ('0' ≤ c) && decide (c ≤ '9')

/-- Python `str.isdigit` on a whole string: non-empty and all digits. -/
def isdigitStr (l : List Char) : Bool := !(l.isEmpty) && l.all pyIsDigit

/-- Python `str.replace(c, "")`: delete every occurrence of the character. -/
def removeAllChar (c : Char) (l : List Char) : List Char := l.filter (fun d => d != c)

/-- The cpu-side validity check of `get_cpu`:
`output.replace('.', '').replace('-', '').isdigit()` — every dot and every
dash is deleted, wherever it occurs and however many there are. -/
def pyCpuCheck (s : String) : Bool :=
  isdigitStr (removeAllChar '-' (removeAllChar '.' s.data))

/-- The memory-side validity check of `get_memory`:
`output.replace('.', '').isdigit()` — only dots are deleted, so any dash
(in particular a leading minus sign) is rejected. -/
def pyMemCheck (s : String) : Bool :=
  isdigitStr (removeAllChar '.' s.data)

/-- The numeric-validity rule as the spec words it: after removing at most
one leading `-` and at most one `.`, the non-empty remainder consists solely
of digits. First, the removal of one leading dash. -/
def dropLeadingDash (l : List Char) : List Char :=
  match l with
  | [] => []
  | c :: r => if c = '-' then r else c :: r

/-- The spec's numeric-validity rule itself (see `dropLeadingDash`). -/
def specNumericCheck (s : String) : Bool :=
  let t := dropLeadingDash s.data
  t.all (fun c => pyIsDigit c || c == '.') && decide (t.count '.' ≤ 1) &&
    !((removeAllChar '.' t).isEmpty)

/-- Result of Python `float(s)`: a finite rational, or one of the special
values `inf`, `-inf`, `nan`. -/
inductive PyNum where
  | fin (q : ℚ)
  | inf
  | neginf
  | nan
deriving DecidableEq

/-- A digit group as Python numeric literals allow it inside `float`:
non-empty, starting with a digit, single underscores only between digits. -/
def digitsUnd : List Char → Bool
  | [] => false
  | c :: rest => c.isDigit && digitsUndAux rest
where
  digitsUndAux : List Char → Bool
  | [] => true
  | '_' :: rest =>
      match rest with
      | [] => false
      | c :: rest2 => c.isDigit && digitsUndAux rest2
  | c :: rest => c.isDigit && digitsUndAux rest

/-- Delete the underscore digit separators. -/
def stripUnd (l : List Char) : List Char := l.filter (fun c => c != '_')

/-- Value of a (pure) digit string. -/
def digitsVal (l : List Char) : ℕ :=
  l.foldl (fun a c => a * 10 + (c.toNat - 48)) 0

/-- Split an optional leading sign: returns (negative?, rest). -/
def splitSign : List Char → Bool × List Char
  | '-' :: r => (true, r)
  | '+' :: r => (false, r)
  | l => (false, l)

/-- Mantissa of a Python float literal: `digits`, `digits.`, `.digits` or
`digits.digits`, each digit group obeying the underscore rules. -/
def pyMant : List Char → Option ℚ := fun m =>
  match m.splitOn '.' with
  | [i] => if digitsUnd i then some (digitsVal (stripUnd i)) else none
  | [i, f] =>
      if (i.isEmpty || digitsUnd i) && (f.isEmpty || digitsUnd f) &&
         !(i.isEmpty && f.isEmpty) then
        some ((digitsVal (stripUnd i) : ℚ) +
              (digitsVal (stripUnd f) : ℚ) / (10 : ℚ) ^ (stripUnd f).length)
      else none
  | _ => none

/-- Exponent part of a Python float literal (after the `e`). -/
def pyExp : List Char → Option ℤ := fun ex =>
  let se := splitSign ex
  if digitsUnd se.2 then
    some ((if se.1 then -1 else 1) * (digitsVal (stripUnd se.2) : ℤ))
  else none

/-- Python `float(s)` on an already-stripped string (the inputs come from
`run_command`, which strips whitespace): optional sign, then `inf`,
`infinity`, `nan` (case-insensitive) or a decimal literal with optional
exponent. `none` models the `ValueError` CPython raises otherwise. -/
def pyFloat (s : String) : Option PyNum :=
  let sr := splitSign s.data
  let low := sr.2.map Char.toLower
  if low == "inf".data || low == "infinity".data then
    some (if sr.1 then .neginf else .inf)
  else if low == "nan".data then some .nan
  else
    match low.splitOn 'e' with
    | [m] => (pyMant m).map (fun q => .fin (if sr.1 then -q else q))
    | [m, ex] =>
        match pyMant m, pyExp ex with
        | some q, some e =>
            some (.fin ((if sr.1 then -q else q) * (10 : ℚ) ^ e))
        | _, _ => none
    | _ => none

/-- Python-whitespace test used by `str.strip()` and `str.split()`. -/
def pyWhitespaceB (c : Char) : Bool :=
  c == ' ' || c == '\t' || c == '\n' || c == '\x0d' || c == '\x0b' || c == '\x0c'

/-- Python `str.strip()`: whitespace removed from both ends. -/
def pyStrip (s : String) : String :=
  String.mk (((s.data.dropWhile pyWhitespaceB).reverse.dropWhile pyWhitespaceB).reverse)

/-- What the measurement command produced: captured stdout, or an exception
(non-zero exit does not raise; a timeout or spawn failure does). -/
inductive CmdOutcome where
  | ok (stdout : String)
  | exc (msg : String)
deriving DecidableEq

/-- `run_command`: the stripped stdout on success, the string
`"Error: {e}"` when the subprocess call raised. -/
def run_command (r : CmdOutcome) : String :=
  match r with
  | .ok out => pyStrip out
  | .exc m => "Error: " ++ m

/-- A collected metric dictionary as the collectors build it. -/
structure MetricD where
  value : PyNum
  unit : String
  error : Option String
deriving DecidableEq

/-- `get_cpu`, as a function of the two command outputs (each already passed
through `run_command`). An `Except.error` models an uncaught Python
exception escaping the function: that happens exactly when a validity check
accepts the output but `float()` then raises. -/
def get_cpu (out1 out2 : String) : Except String MetricD :=
  if pyCpuCheck out1 then
    match pyFloat out1 with
    | some v => .ok ⟨v, "%", none⟩
    | none => .error "ValueError: could not convert string to float"
  else if out2 != "" && pyCpuCheck out2 then
    match pyFloat out2 with
    | some v => .ok ⟨v, "%", none⟩
    | none => .error "ValueError: could not convert string to float"
  else .ok ⟨.fin 0, "%", some "无法获取"⟩

/-- `get_memory`, as a function of the command output. -/
def get_memory (out : String) : Except String MetricD :=
  if pyMemCheck out then
    match pyFloat out with
    | some v => .ok ⟨v, "%", none⟩
    | none => .error "ValueError: could not convert string to float"
  else .ok ⟨.fin 0, "%", some "无法获取"⟩

/-- Python `output.endswith('%')`: the final character is `%`. -/
def endsWithPercent (s : String) : Bool := s.data.getLast? == some '%'

/-- Python `output[:-1]`: the string without its final character. -/
def dropLast1 (s : String) : String := String.mk s.data.dropLast

/-- `get_disk`, as a function of the command output: accepts any output with
a trailing `%` and feeds everything before it to `float()`. -/
def get_disk (out : String) : Except String MetricD :=
  if endsWithPercent out then
    match pyFloat (dropLast1 out) with
    | some v => .ok ⟨v, "%", none⟩
    | none => .error "ValueError: could not convert string to float"
  else .ok ⟨.fin 0, "%", some "无法获取"⟩

/-- View of an `Except` value as a sum, to decide equality of results. -/
def exceptToSum {ε α : Type} : Except ε α → ε ⊕ α
  | .error e => .inl e
  | .ok a => .inr a

instance {ε α : Type} [DecidableEq ε] [DecidableEq α] : DecidableEq (Except ε α) :=
  fun a b => decidable_of_iff (exceptToSum a = exceptToSum b)
    (by cases a <;> cases b <;> simp [exceptToSum])

/-- Worker for `pySplit`: walk the characters, accumulating the current
token (reversed); whitespace closes the token. -/
def pySplitGo : List Char → List Char → List String
  | [], acc => if acc.isEmpty then [] else [String.mk acc.reverse]
  | c :: rest, acc =>
      if pyWhitespaceB c then
        if acc.isEmpty then pySplitGo rest [] else String.mk acc.reverse :: pySplitGo rest []
      else pySplitGo rest (c :: acc)

/-- Python `str.split()` with no separator: the maximal runs of
non-whitespace characters, in order (no empty tokens). -/
def pySplit (s : String) : List String := pySplitGo s.data []

/-- The load dictionary as `get_load` builds it. -/
structure LoadD where
  oneMin : String
  fiveMin : String
  fifteenMin : String
deriving DecidableEq

/-- `get_load`, as a function of the raw command outcome: defaults to three
`"0"` tokens only when the (stripped or error-formatted) output is empty;
a non-empty output is split, and fewer than three tokens means the
subscripts `parts[1]` / `parts[2]` raise `IndexError` (modelled as
`Except.error`). -/
def get_load (r : CmdOutcome) : Except String LoadD :=
  let output := run_command r
  if output != "" then
    match pySplit output with
    | p0 :: p1 :: p2 :: _ => .ok ⟨p0, p1, p2⟩
    | _ => .error "IndexError: list index out of range"
  else .ok ⟨"0", "0", "0"⟩

end Monitor

namespace Monitor

theorem strData_append (s t : String) : (s ++ t).data = s.data ++ t.data := by
  cases s; cases t; rfl

theorem alertTag_append (a b : String) (h : 3 < a.data.length) :
    alertTag (a ++ b) = a.data[3]? := by
  rw [alertTag, strData_append, List.getElem?_append, if_pos h]

theorem alertTag_cpuAlertStr (v : ℚ) : alertTag (cpuAlertStr v) = some 'C' := by
  rw [cpuAlertStr, alertTag_append _ _ (by decide)]; decide

theorem alertTag_memAlertStr (v : ℚ) : alertTag (memAlertStr v) = some '内' := by
  rw [memAlertStr, alertTag_append _ _ (by decide)]; decide

theorem alertTag_diskAlertStr (v : ℚ) : alertTag (diskAlertStr v) = some '磁' := by
  rw [diskAlertStr, alertTag_append _ _ (by decide)]; decide

theorem hasCpuAlert_check (st : Status) (cfg : Config) :
    hasCpuAlert (check_alerts st cfg) = decide (getValue st.cpu > cpuThreshold cfg) := by
  by_cases h1 : getValue st.cpu > cpuThreshold cfg <;>
  by_cases h2 : getValue st.memory > memThreshold cfg <;>
  by_cases h3 : getValue st.disk > diskThreshold cfg <;>
  simp [check_alerts, hasCpuAlert, h1, h2, h3,
        alertTag_cpuAlertStr, alertTag_memAlertStr, alertTag_diskAlertStr]

theorem hasMemAlert_check (st : Status) (cfg : Config) :
    hasMemAlert (check_alerts st cfg) = decide (getValue st.memory > memThreshold cfg) := by
  by_cases h1 : getValue st.cpu > cpuThreshold cfg <;>
  by_cases h2 : getValue st.memory > memThreshold cfg <;>
  by_cases h3 : getValue st.disk > diskThreshold cfg <;>
  simp [check_alerts, hasMemAlert, h1, h2, h3,
        alertTag_cpuAlertStr, alertTag_memAlertStr, alertTag_diskAlertStr]

theorem hasDiskAlert_check (st : Status) (cfg : Config) :
    hasDiskAlert (check_alerts st cfg) = decide (getValue st.disk > diskThreshold cfg) := by
  by_cases h1 : getValue st.cpu > cpuThreshold cfg <;>
  by_cases h2 : getValue st.memory > memThreshold cfg <;>
  by_cases h3 : getValue st.disk > diskThreshold cfg <;>
  simp [check_alerts, hasDiskAlert, h1, h2, h3,
        alertTag_cpuAlertStr, alertTag_memAlertStr, alertTag_diskAlertStr]

theorem getValue_bindNone (m : Option MetricEntry)
    (h : m.bind MetricEntry.value = none) : getValue m = 0 := by
  cases m with
  | none => rfl
  | some e =>
      cases hv : e.value with
      | none => simp [getValue, hv]
      | some q => simp [Option.bind, hv] at h

theorem getValue_eraseEntry (m : Option MetricEntry) :
    getValue (m.map (fun e => ⟨e.value, e.unit, none⟩)) = getValue m := by
  cases m <;> rfl

theorem alertRank_cpuAlertStr (v : ℚ) : alertRank (cpuAlertStr v) = 0 := by
  unfold alertRank
  rw [alertTag_cpuAlertStr]
  decide

theorem alertRank_memAlertStr (v : ℚ) : alertRank (memAlertStr v) = 1 := by
  unfold alertRank
  rw [alertTag_memAlertStr]
  decide

theorem alertRank_diskAlertStr (v : ℚ) : alertRank (diskAlertStr v) = 2 := by
  unfold alertRank
  rw [alertTag_diskAlertStr]
  decide

/-- C1: the claim as stated is false on the code: `check_alerts` never reads
the `error` key, so a cpu entry with `error` set and value 200.0 does
contribute an alert under the default thresholds. -/
theorem C1_counterexample :
    (⟨some ⟨some 200, some "%", some "无法获取"⟩, none, none, none, none⟩ : Status).cpu.bind
        (fun e => e.error) = some "无法获取" ∧
    check_alerts ⟨some ⟨some 200, some "%", some "无法获取"⟩, none, none, none, none⟩
        configDefault = ["⚠️ CPU 过载: 200.0% (>80%)"] := by
  exact ⟨rfl, by decide⟩

/-- C1 (amended): `check_alerts` ignores the `error` field entirely — erasing
every `error` key never changes its output — and a metric entry whose value is
0 (as every collector produces whenever it sets an error) yields no alert for
that metric as long as its configured threshold is nonnegative. -/
theorem C1_claim (st : Status) (cfg : Config) :
    check_alerts (eraseErrors st) cfg = check_alerts st cfg ∧
    (getValue st.cpu = 0 → 0 ≤ cpuThreshold cfg →
      hasCpuAlert (check_alerts st cfg) = false) ∧
    (getValue st.memory = 0 → 0 ≤ memThreshold cfg →
      hasMemAlert (check_alerts st cfg) = false) ∧
    (getValue st.disk = 0 → 0 ≤ diskThreshold cfg →
      hasDiskAlert (check_alerts st cfg) = false) := by
  refine ⟨?_, ?_, ?_, ?_⟩
  · simp [check_alerts, eraseErrors, getValue_eraseEntry]
  · intro h1 h2
    rw [hasCpuAlert_check, h1, decide_eq_false_iff_not]
    exact not_lt.mpr h2
  · intro h1 h2
    rw [hasMemAlert_check, h1, decide_eq_false_iff_not]
    exact not_lt.mpr h2
  · intro h1 h2
    rw [hasDiskAlert_check, h1, decide_eq_false_iff_not]
    exact not_lt.mpr h2

/-- C1 witness: a collector-shaped errored cpu entry (value 0, error set)
raises no alert under the default thresholds, and erasing errors changes
nothing. -/
theorem C1_witness :
    check_alerts (eraseErrors ⟨some ⟨some 0, some "%", some "无法获取"⟩, none, none, none, none⟩)
        configDefault =
      check_alerts ⟨some ⟨some 0, some "%", some "无法获取"⟩, none, none, none, none⟩
        configDefault ∧
    hasCpuAlert (check_alerts ⟨some ⟨some 0, some "%", some "无法获取"⟩, none, none, none, none⟩
        configDefault) = false :=
  ⟨(C1_claim ⟨some ⟨some 0, some "%", some "无法获取"⟩, none, none, none, none⟩
      configDefault).1,
   (C1_claim ⟨some ⟨some 0, some "%", some "无法获取"⟩, none, none, none, none⟩
      configDefault).2.1 (by decide) (by decide)⟩

theorem pyIsDigit_ne_dash (c : Char) (h : pyIsDigit c = true) : (c != '-') = true := by
  simp only [pyIsDigit, Bool.and_eq_true] at h
  rw [bne_iff_ne]
  intro hc
  subst hc
  exact absurd (of_decide_eq_true h.1) (by decide)

theorem dropLeadingDash_cons_dash (r : List Char) : dropLeadingDash ('-' :: r) = r := by
  simp [dropLeadingDash]

theorem dropLeadingDash_cons_ne (c : Char) (r : List Char) (hc : ¬ c = '-') :
    dropLeadingDash (c :: r) = c :: r := by
  simp [dropLeadingDash, hc]

theorem removeDots_all_digits (t : List Char)
    (hall : t.all (fun c => pyIsDigit c || c == '.') = true) :
    (removeAllChar '.' t).all pyIsDigit = true ∧
    removeAllChar '-' (removeAllChar '.' t) = removeAllChar '.' t := by
  have hmem : ∀ x ∈ removeAllChar '.' t, pyIsDigit x = true := by
    intro x hx
    rw [removeAllChar, List.mem_filter] at hx
    have hx1 := (List.all_eq_true.mp hall) x hx.1
    simp only [Bool.or_eq_true] at hx1
    rcases hx1 with hd | hdot
    · exact hd
    · exact absurd (eq_of_beq hdot) (by simpa [bne_iff_ne] using hx.2)
  constructor
  · exact List.all_eq_true.mpr hmem
  · show (removeAllChar '.' t).filter (fun d => d != '-') = removeAllChar '.' t
    exact List.filter_eq_self.mpr (fun a ha => pyIsDigit_ne_dash a (hmem a ha))

/-- C2: the claim's "if and only if" fails in both directions on the code:
the cpu-side check deletes every dot and dash wherever it occurs, so it
accepts `"1-2"`, which the spec rule rejects; the memory-side check deletes
no dash at all, so it rejects `"-1.0"`, which the spec rule accepts. -/
theorem C2_counterexample :
    pyCpuCheck "1-2" = true ∧ specNumericCheck "1-2" = false ∧
    pyMemCheck "-1.0" = false ∧ specNumericCheck "-1.0" = true := by
  decide

/-- C2 (amended): the checks are one-sidedly related to the spec rule: every
string valid under the spec rule passes the cpu-side check, and every
dash-free spec-valid string passes the memory-side check; the converses fail
(see the counterexample), because the code deletes all `.`/`-` occurrences
before testing `isdigit` and the memory check never strips a minus sign. -/
theorem C2_claim (s : String) :
    (specNumericCheck s = true → pyCpuCheck s = true) ∧
    (specNumericCheck s = true → s.data.count '-' = 0 → pyMemCheck s = true) := by
  constructor
  · intro h
    simp only [specNumericCheck, Bool.and_eq_true] at h
    obtain ⟨⟨hall, _⟩, hne⟩ := h
    cases hd : s.data with
    | nil =>
        rw [hd] at hne
        simp [dropLeadingDash, removeAllChar] at hne
    | cons c r =>
        rw [hd] at hall hne
        by_cases hc : c = '-'
        · subst hc
          rw [dropLeadingDash_cons_dash] at hall hne
          obtain ⟨hdig, hfix⟩ := removeDots_all_digits r hall
          simp only [pyCpuCheck, hd]
          have h1 : removeAllChar '.' ('-' :: r) = '-' :: removeAllChar '.' r := by
            simp [removeAllChar, List.filter_cons]
          have h2 : removeAllChar '-' ('-' :: removeAllChar '.' r) =
              removeAllChar '-' (removeAllChar '.' r) := by
            simp [removeAllChar, List.filter_cons]
          rw [h1, h2, hfix]
          simp only [isdigitStr, Bool.and_eq_true]
          exact ⟨hne, hdig⟩
        · rw [dropLeadingDash_cons_ne c r hc] at hall hne
          obtain ⟨hdig, hfix⟩ := removeDots_all_digits (c :: r) hall
          simp only [pyCpuCheck, hd, hfix, isdigitStr, Bool.and_eq_true]
          exact ⟨hne, hdig⟩
  · intro h hcount
    simp only [specNumericCheck, Bool.and_eq_true] at h
    obtain ⟨⟨hall, _⟩, hne⟩ := h
    have hnotmem : ¬ '-' ∈ s.data := List.count_eq_zero.mp hcount
    have ht : dropLeadingDash s.data = s.data := by
      cases hd : s.data with
      | nil => rfl
      | cons c r =>
          refine dropLeadingDash_cons_ne c r ?_
          intro hc
          subst hc
          exact hnotmem (hd ▸ List.mem_cons_self _ _)
    rw [ht] at hall hne
    obtain ⟨hdig, _⟩ := removeDots_all_digits s.data hall
    simp only [pyMemCheck, isdigitStr, Bool.and_eq_true]
    exact ⟨hne, hdig⟩

/-- C2 witness: the spec-valid string `"45.3"` passes both checks, through
the two implications of the amended theorem. -/
theorem C2_witness : pyCpuCheck "45.3" = true ∧ pyMemCheck "45.3" = true :=
  ⟨(C2_claim "45.3").1 (by decide), (C2_claim "45.3").2 (by decide) (by decide)⟩

/-- C3: the claim is false of the code and true of the spec's intent
(collection must never abort): the cpu validity check accepts `"1-2"`
(all dots and dashes are deleted before `isdigit`), after which
`float("1-2")` raises an uncaught `ValueError`; likewise `get_disk` accepts
any output ending in `%`, so `"abc%"` reaches `float("abc")` and raises.
Outputs that fail the checks do degrade to value 0 with a diagnostic. -/
theorem C3_claim :
    get_cpu "1-2" "" = .error "ValueError: could not convert string to float" ∧
    get_disk "abc%" = .error "ValueError: could not convert string to float" ∧
    get_cpu "no data" "" = .ok ⟨.fin 0, "%", some "无法获取"⟩ ∧
    get_disk "no data" = .ok ⟨.fin 0, "%", some "无法获取"⟩ :=
  ⟨rfl, rfl, rfl, rfl⟩

/-- C4: the claim is false of the code and true of the spec's intent: a
command failure makes `run_command` return the non-empty string
`"Error: ..."`, so `get_load` does not take its all-"0" default branch — it
splits the error text, raising `IndexError` on two tokens or returning
garbage tokens on three or more; a two-token measurement output also raises.
Only an empty output yields the documented `{"0","0","0"}` default. -/
theorem C4_claim :
    get_load (.ok "1.0 2.0") = .error "IndexError: list index out of range" ∧
    get_load (.exc "timeout") = .error "IndexError: list index out of range" ∧
    get_load (.exc "command timed out") = .ok ⟨"Error:", "command", "timed"⟩ ∧
    get_load (.ok "") = .ok ⟨"0", "0", "0"⟩ ∧
    get_load (.ok "0.5 0.3 0.1") = .ok ⟨"0.5", "0.3", "0.1"⟩ :=
  ⟨rfl, rfl, rfl, rfl, rfl⟩

/-- C5: the claim is false: the threshold printed in the alert text is
hard-coded (`(>80%)` for cpu, `(>90%)` for memory/disk), not the configured
one. With cpu threshold configured to 50 and value 60.0, an alert fires but
its text shows `(>80%)` and contains no `50`. -/
theorem C5_counterexample :
    check_alerts ⟨some ⟨some 60, some "%", none⟩, none, none, none, none⟩
        ⟨some ⟨some 50, none, none⟩⟩ = ["⚠️ CPU 过载: 60.0% (>80%)"] ∧
    cpuThreshold ⟨some ⟨some 50, none, none⟩⟩ = 50 ∧
    strContains "⚠️ CPU 过载: 60.0% (>80%)" "50" = false := by
  exact ⟨by decide, by decide, by decide⟩

/-- C5 (amended): every alert `check_alerts` appends is exactly the metric's
fixed-format string — the metric label, its value rendered to one decimal,
and the hard-coded default threshold text `(>80%)` (cpu) or `(>90%)`
(memory, disk); the configured threshold never appears in the text. -/
theorem C5_claim (st : Status) (cfg : Config) (s : String)
    (hs : s ∈ check_alerts st cfg) :
    s = "⚠️ CPU 过载: " ++ (fmt1 (getValue st.cpu) ++ "% (>80%)") ∨
    s = "⚠️ 内存告警: " ++ (fmt1 (getValue st.memory) ++ "% (>90%)") ∨
    s = "⚠️ 磁盘不足: " ++ (fmt1 (getValue st.disk) ++ "% (>90%)") := by
  by_cases h1 : getValue st.cpu > cpuThreshold cfg <;>
  by_cases h2 : getValue st.memory > memThreshold cfg <;>
  by_cases h3 : getValue st.disk > diskThreshold cfg <;>
  simp [check_alerts, h1, h2, h3, cpuAlertStr, memAlertStr, diskAlertStr] at hs <;>
  tauto

/-- C5 witness: the cpu alert fired by value 200.0 under the default
thresholds has the fixed-format cpu text. -/
theorem C5_witness :
    "⚠️ CPU 过载: 200.0% (>80%)" =
      "⚠️ CPU 过载: " ++
        (fmt1 (getValue (⟨some ⟨some 200, some "%", none⟩, none, none, none, none⟩ :
          Status).cpu) ++ "% (>80%)") ∨
    "⚠️ CPU 过载: 200.0% (>80%)" =
      "⚠️ 内存告警: " ++
        (fmt1 (getValue (⟨some ⟨some 200, some "%", none⟩, none, none, none, none⟩ :
          Status).memory) ++ "% (>90%)") ∨
    "⚠️ CPU 过载: 200.0% (>80%)" =
      "⚠️ 磁盘不足: " ++
        (fmt1 (getValue (⟨some ⟨some 200, some "%", none⟩, none, none, none, none⟩ :
          Status).disk) ++ "% (>90%)") :=
  C5_claim ⟨some ⟨some 200, some "%", none⟩, none, none, none, none⟩ configDefault
    "⚠️ CPU 过载: 200.0% (>80%)" (by decide)

/-- C6: delivery is attempted exactly when both credentials are truthy and
the alert list is non-empty or the minute is below 5; a missing credential
yields the not-configured outcome and its report line; and the formatted
report is among the printed output in every case. -/
theorem C6_claim (st : Status) (cfg : Config) (nowH nowM : String) (minute : ℕ)
    (appId appSecret : Option String) (netOk : Bool) :
    (sendDecision (check_alerts st cfg) minute appId appSecret = .attempted ↔
      (truthy appId = true ∧ truthy appSecret = true ∧
       (check_alerts st cfg ≠ [] ∨ minute < 5))) ∧
    ((truthy appId = false ∨ truthy appSecret = false) →
      sendDecision (check_alerts st cfg) minute appId appSecret = .notConfigured ∧
      "\n💡 未配置飞书，仅显示本地" ∈
        mainPrinted st cfg nowH nowM minute appId appSecret netOk) ∧
    format_message st (check_alerts st cfg) cfg nowM ∈
      mainPrinted st cfg nowH nowM minute appId appSecret netOk := by
  cases hA : truthy appId <;> cases hS : truthy appSecret <;>
  by_cases hm : minute < 5 <;> cases hE : check_alerts st cfg <;>
  simp [sendDecision, mainPrinted, hA, hS, hm, hE, format_message]

/-- C6 witness: with no app id configured, the outcome is not-configured,
its line is printed, and the report is printed. -/
theorem C6_witness :
    sendDecision (check_alerts ⟨none, none, none, none, none⟩ configDefault) 30 none
        (some "s") = .notConfigured ∧
    "\n💡 未配置飞书，仅显示本地" ∈
      mainPrinted ⟨none, none, none, none, none⟩ configDefault "h" "m" 30 none
        (some "s") true :=
  (C6_claim ⟨none, none, none, none, none⟩ configDefault "h" "m" 30 none
    (some "s") true).2.1 (Or.inl (by decide))

/-- C7: `check_alerts` is monotone per metric: raising a metric's value
(thresholds fixed) preserves its alert, and if the raised value produces no
alert then neither did the lower one. -/
theorem C7_claim (st st' : Status) (cfg : Config) :
    (getValue st.cpu ≤ getValue st'.cpu →
      (hasCpuAlert (check_alerts st cfg) = true →
        hasCpuAlert (check_alerts st' cfg) = true) ∧
      (hasCpuAlert (check_alerts st' cfg) = false →
        hasCpuAlert (check_alerts st cfg) = false)) ∧
    (getValue st.memory ≤ getValue st'.memory →
      (hasMemAlert (check_alerts st cfg) = true →
        hasMemAlert (check_alerts st' cfg) = true) ∧
      (hasMemAlert (check_alerts st' cfg) = false →
        hasMemAlert (check_alerts st cfg) = false)) ∧
    (getValue st.disk ≤ getValue st'.disk →
      (hasDiskAlert (check_alerts st cfg) = true →
        hasDiskAlert (check_alerts st' cfg) = true) ∧
      (hasDiskAlert (check_alerts st' cfg) = false →
        hasDiskAlert (check_alerts st cfg) = false)) := by
  refine ⟨fun hle => ⟨?_, ?_⟩, fun hle => ⟨?_, ?_⟩, fun hle => ⟨?_, ?_⟩⟩
  · intro h
    rw [hasCpuAlert_check, decide_eq_true_eq] at h ⊢
    exact lt_of_lt_of_le h hle
  · intro h
    rw [hasCpuAlert_check, decide_eq_false_iff_not] at h ⊢
    exact fun hlt => h (lt_of_lt_of_le hlt hle)
  · intro h
    rw [hasMemAlert_check, decide_eq_true_eq] at h ⊢
    exact lt_of_lt_of_le h hle
  · intro h
    rw [hasMemAlert_check, decide_eq_false_iff_not] at h ⊢
    exact fun hlt => h (lt_of_lt_of_le hlt hle)
  · intro h
    rw [hasDiskAlert_check, decide_eq_true_eq] at h ⊢
    exact lt_of_lt_of_le h hle
  · intro h
    rw [hasDiskAlert_check, decide_eq_false_iff_not] at h ⊢
    exact fun hlt => h (lt_of_lt_of_le hlt hle)

/-- C7 witness: raising an alerting cpu value from 90 to 95 under default
thresholds keeps the cpu alert. -/
theorem C7_witness :
    hasCpuAlert (check_alerts ⟨some ⟨some 95, some "%", none⟩, none, none, none, none⟩
      configDefault) = true :=
  ((C7_claim ⟨some ⟨some 90, some "%", none⟩, none, none, none, none⟩
      ⟨some ⟨some 95, some "%", none⟩, none, none, none, none⟩ configDefault).1
    (by decide)).1 (by decide)

/-- C8: the alert list is always ordered cpu, then memory, then disk: the
rank (cpu=0, memory=1, disk=2, read off the identifying character of each
alert string) is strictly increasing along the output, whichever subset of
metrics triggered; and every element is one of those three alerts. -/
theorem C8_claim (st : Status) (cfg : Config) :
    List.Pairwise (fun a b => alertRank a < alertRank b) (check_alerts st cfg) ∧
    ∀ s ∈ check_alerts st cfg, alertRank s ≤ 2 := by
  by_cases h1 : getValue st.cpu > cpuThreshold cfg <;>
  by_cases h2 : getValue st.memory > memThreshold cfg <;>
  by_cases h3 : getValue st.disk > diskThreshold cfg <;>
  simp [check_alerts, h1, h2, h3, List.pairwise_cons,
        alertRank_cpuAlertStr, alertRank_memAlertStr, alertRank_diskAlertStr]

/-- C8 witness: the cpu alert produced under default thresholds has rank 0,
within the bound of the theorem's second part. -/
theorem C8_witness :
    alertRank "⚠️ CPU 过载: 200.0% (>80%)" ≤ 2 :=
  (C8_claim ⟨some ⟨some 200, some "%", none⟩, none, none, none, none⟩
      configDefault).2 "⚠️ CPU 过载: 200.0% (>80%)" (by decide)

theorem marker_cases (v lo hi : ℚ) (hlh : lo < hi) :
    ∃ m : String, (if v < lo then "✅" else if v < hi then "🟡" else "🔴") = m ∧
      (m = "✅" ↔ v < lo) ∧ (m = "🟡" ↔ lo ≤ v ∧ v < hi) ∧ (m = "🔴" ↔ hi ≤ v) := by
  by_cases h1 : v < lo
  · refine ⟨"✅", by simp [h1], ⟨fun _ => h1, fun _ => rfl⟩, ?_, ?_⟩
    · exact ⟨fun hm => absurd hm (by decide),
        fun hp => absurd h1 (not_lt.mpr hp.1)⟩
    · exact ⟨fun hm => absurd hm (by decide),
        fun hge => absurd h1 (not_lt.mpr (le_trans (le_of_lt hlh) hge))⟩
  · by_cases h2 : v < hi
    · refine ⟨"🟡", by simp [h1, h2], ?_, ⟨fun _ => ⟨not_lt.mp h1, h2⟩, fun _ => rfl⟩, ?_⟩
      · exact ⟨fun hm => absurd hm (by decide), fun hv => absurd hv h1⟩
      · exact ⟨fun hm => absurd hm (by decide), fun hge => absurd h2 (not_lt.mpr hge)⟩
    · refine ⟨"🔴", by simp [h1, h2], ?_, ?_, ⟨fun _ => not_lt.mp h2, fun _ => rfl⟩⟩
      · exact ⟨fun hm => absurd hm (by decide), fun hv => absurd hv h1⟩
      · exact ⟨fun hm => absurd hm (by decide), fun hp => absurd hp.2 h2⟩

theorem cpuLine_marker (st : Status) :
    ∃ m, cpuLine st = m ++ (" **CPU** " ++ (fmt1 (getValue st.cpu) ++ "%")) ∧
      (m = "✅" ↔ getValue st.cpu < 50) ∧
      (m = "🟡" ↔ 50 ≤ getValue st.cpu ∧ getValue st.cpu < 80) ∧
      (m = "🔴" ↔ 80 ≤ getValue st.cpu) := by
  obtain ⟨m, hmeq, hrest⟩ := marker_cases (getValue st.cpu) 50 80 (by decide)
  refine ⟨m, ?_, hrest⟩
  simp only [cpuLine]
  rw [hmeq]

theorem memLine_marker (st : Status) :
    ∃ m, memLine st = m ++ (" **内存** " ++ (fmt1 (getValue st.memory) ++ "%")) ∧
      (m = "✅" ↔ getValue st.memory < 70) ∧
      (m = "🟡" ↔ 70 ≤ getValue st.memory ∧ getValue st.memory < 90) ∧
      (m = "🔴" ↔ 90 ≤ getValue st.memory) := by
  obtain ⟨m, hmeq, hrest⟩ := marker_cases (getValue st.memory) 70 90 (by decide)
  refine ⟨m, ?_, hrest⟩
  simp only [memLine]
  rw [hmeq]

theorem diskLine_marker (st : Status) :
    ∃ m, diskLine st = m ++ (" **磁盘** " ++ (fmt1 (getValue st.disk) ++ "%")) ∧
      (m = "✅" ↔ getValue st.disk < 70) ∧
      (m = "🟡" ↔ 70 ≤ getValue st.disk ∧ getValue st.disk < 90) ∧
      (m = "🔴" ↔ 90 ≤ getValue st.disk) := by
  obtain ⟨m, hmeq, hrest⟩ := marker_cases (getValue st.disk) 70 90 (by decide)
  refine ⟨m, ?_, hrest⟩
  simp only [diskLine]
  rw [hmeq]

/-- C9: the claim is false in its tier-2/tier-3 clause: the upper tier bound
is hard-coded (80 for cpu, 90 for memory/disk) — `format_message` never
reads the threshold configuration. With cpu threshold configured to 50 and
value 60.0 the claim demands the tier-3 marker (60 is not below the
configured threshold), but the code renders the tier-2 marker `🟡`. -/
theorem C9_counterexample :
    cpuLine ⟨some ⟨some 60, some "%", none⟩, none, none, none, none⟩ = "🟡 **CPU** 60.0%" ∧
    ¬(getValue (⟨some ⟨some 60, some "%", none⟩, none, none, none, none⟩ : Status).cpu <
        cpuThreshold ⟨some ⟨some 50, none, none⟩⟩) ∧
    cpuThreshold ⟨some ⟨some 50, none, none⟩⟩ = 50 := by
  exact ⟨by decide, by decide, by decide⟩

/-- C9 (amended): each metric line of `format_message` is a marker followed
by the value rendered to one decimal; the marker is `✅` exactly below 50
(cpu) / 70 (memory, disk), `🟡` exactly from there up to the HARD-CODED
bound 80 (cpu) / 90 (memory, disk), and `🔴` exactly at or above that bound;
the configured thresholds play no part. The three lines sit at positions
1, 2, 3 of the message. -/
theorem C9_claim (st : Status) (alerts : List String) (cfg : Config) (now : String) :
    (∃ m, cpuLine st = m ++ (" **CPU** " ++ (fmt1 (getValue st.cpu) ++ "%")) ∧
      (m = "✅" ↔ getValue st.cpu < 50) ∧
      (m = "🟡" ↔ 50 ≤ getValue st.cpu ∧ getValue st.cpu < 80) ∧
      (m = "🔴" ↔ 80 ≤ getValue st.cpu)) ∧
    (∃ m, memLine st = m ++ (" **内存** " ++ (fmt1 (getValue st.memory) ++ "%")) ∧
      (m = "✅" ↔ getValue st.memory < 70) ∧
      (m = "🟡" ↔ 70 ≤ getValue st.memory ∧ getValue st.memory < 90) ∧
      (m = "🔴" ↔ 90 ≤ getValue st.memory)) ∧
    (∃ m, diskLine st = m ++ (" **磁盘** " ++ (fmt1 (getValue st.disk) ++ "%")) ∧
      (m = "✅" ↔ getValue st.disk < 70) ∧
      (m = "🟡" ↔ 70 ≤ getValue st.disk ∧ getValue st.disk < 90) ∧
      (m = "🔴" ↔ 90 ≤ getValue st.disk)) ∧
    (format_messageLines st alerts cfg now)[1]? = some (cpuLine st) ∧
    (format_messageLines st alerts cfg now)[2]? = some (memLine st) ∧
    (format_messageLines st alerts cfg now)[3]? = some (diskLine st) :=
  ⟨cpuLine_marker st, memLine_marker st, diskLine_marker st, rfl, rfl, rfl⟩

/-- C10: a missing metric entry, or one without a `value` key, is treated as
value 0 by both consumers: `check_alerts` raises no alert for it (its
percentage threshold being nonnegative) and `format_message` renders it as
`0.0` with the tier-1 marker at its fixed position; both embedded functions
are total, as every dictionary access in the source carries a default. -/
theorem C10_claim (st : Status) (cfg : Config) (alerts : List String) (now : String) :
    (st.cpu.bind MetricEntry.value = none →
      getValue st.cpu = 0 ∧
      (0 ≤ cpuThreshold cfg → hasCpuAlert (check_alerts st cfg) = false) ∧
      cpuLine st = "✅ **CPU** 0.0%" ∧
      (format_messageLines st alerts cfg now)[1]? = some "✅ **CPU** 0.0%") ∧
    (st.memory.bind MetricEntry.value = none →
      getValue st.memory = 0 ∧
      (0 ≤ memThreshold cfg → hasMemAlert (check_alerts st cfg) = false) ∧
      memLine st = "✅ **内存** 0.0%" ∧
      (format_messageLines st alerts cfg now)[2]? = some "✅ **内存** 0.0%") ∧
    (st.disk.bind MetricEntry.value = none →
      getValue st.disk = 0 ∧
      (0 ≤ diskThreshold cfg → hasDiskAlert (check_alerts st cfg) = false) ∧
      diskLine st = "✅ **磁盘** 0.0%" ∧
      (format_messageLines st alerts cfg now)[3]? = some "✅ **磁盘** 0.0%") := by
  refine ⟨fun h => ?_, fun h => ?_, fun h => ?_⟩
  · have hv := getValue_bindNone _ h
    have hline : cpuLine st = "✅ **CPU** 0.0%" := by
      simp only [cpuLine, hv]
      decide
    have hpos : (format_messageLines st alerts cfg now)[1]? = some (cpuLine st) := rfl
    refine ⟨hv, fun ht => ?_, hline, by rw [hpos, hline]⟩
    rw [hasCpuAlert_check, hv, decide_eq_false_iff_not]
    exact not_lt.mpr ht
  · have hv := getValue_bindNone _ h
    have hline : memLine st = "✅ **内存** 0.0%" := by
      simp only [memLine, hv]
      decide
    have hpos : (format_messageLines st alerts cfg now)[2]? = some (memLine st) := rfl
    refine ⟨hv, fun ht => ?_, hline, by rw [hpos, hline]⟩
    rw [hasMemAlert_check, hv, decide_eq_false_iff_not]
    exact not_lt.mpr ht
  · have hv := getValue_bindNone _ h
    have hline : diskLine st = "✅ **磁盘** 0.0%" := by
      simp only [diskLine, hv]
      decide
    have hpos : (format_messageLines st alerts cfg now)[3]? = some (diskLine st) := rfl
    refine ⟨hv, fun ht => ?_, hline, by rw [hpos, hline]⟩
    rw [hasDiskAlert_check, hv, decide_eq_false_iff_not]
    exact not_lt.mpr ht

/-- C10 witness: the empty status dictionary under the default thresholds:
all three values read as 0, no cpu alert, and all three lines render as
tier-1 `0.0`. -/
theorem C10_witness :
    getValue (⟨none, none, none, none, none⟩ : Status).cpu = 0 ∧
    hasCpuAlert (check_alerts ⟨none, none, none, none, none⟩ configDefault) = false ∧
    cpuLine ⟨none, none, none, none, none⟩ = "✅ **CPU** 0.0%" ∧
    memLine ⟨none, none, none, none, none⟩ = "✅ **内存** 0.0%" ∧
    diskLine ⟨none, none, none, none, none⟩ = "✅ **磁盘** 0.0%" := by
  have h := C10_claim ⟨none, none, none, none, none⟩ configDefault [] "t"
  exact ⟨(h.1 rfl).1, (h.1 rfl).2.1 (by decide), (h.1 rfl).2.2.1,
    (h.2.1 rfl).2.2.1, (h.2.2 rfl).2.2.1⟩

end Monitor
